import Mathlib

/-!
Verification of the Medical Intelligence Platform core: the policy
evaluation guard (`MedicalAuthorizationGuard`), the audit logger
(`AuditService`) and the field-level encryption codec
(`EncryptionService` and the `Encrypted`/`Hashed` column transformers).

The definitions below are shallow embeddings of the TypeScript source:
pure functions become Lean functions, the ambient clock (`new Date()`)
and the freshly generated event id become explicit arguments, fallible
operations return `Except`, and external cryptographic primitives
(Node's `crypto` module) become explicit function parameters carrying
only the properties their documentation guarantees.
-/

namespace MedicalPlatform

/-- Medical roles, from the `MedicalRole` enum in `user.entity.ts`. -/
inductive MedicalRole where
  | patient
  | doctor
  | nurse
  | specialist
  | oncologist
  | institutionAdmin
  | caregiver
  | researcher
  | admin
  | user
  deriving DecidableEq, Repr

/-- Data classifications, from the `DataClassification` enum in `user.entity.ts`. -/
inductive DataClassification where
  | phi
  | pii
  | publicData
  | internalData
  deriving DecidableEq, Repr

/-- String value of a classification, as stored in audit entries
(`PHI = 'phi'`, `PII = 'pii'`, ...). -/
def DataClassification.toStr : DataClassification → String
  | .phi => "phi"
  | .pii => "pii"
  | .publicData => "public"
  | .internalData => "internal"

/-- The four risk levels of `PolicyDecision.riskLevel` / `AuditLogEntry.riskLevel`. -/
inductive RiskLevel where
  | low
  | medium
  | high
  | critical
  deriving DecidableEq, Repr

/-- Coarse ordinal rank of a risk level (`low < medium < high < critical`). -/
def RiskLevel.rank : RiskLevel → Nat
  | .low => 0
  | .medium => 1
  | .high => 2
  | .critical => 3

/-- The `MedicalUser` shape read from the request by the guard. -/
structure MedicalUser where
  id : String
  email : String
  medicalRoles : List MedicalRole
  institutionId : Option String
  status : String
  deriving DecidableEq, Repr

/-- Resource information extracted from the request by
`extractResourceInfo`; absent or empty (JS-falsy) ids are `none`. -/
structure ResourceInfo where
  patientId : Option String
  institutionId : Option String
  resourceType : Option String
  resourceId : Option String
  deriving DecidableEq, Repr

/-- The decision record returned by `evaluateMedicalPolicies`. -/
structure PolicyDecision where
  allowed : Bool
  reason : Option String
  riskLevel : RiskLevel
  deriving DecidableEq, Repr

/-- The reading of the ambient clock (`new Date()`): local hour
(`getHours()`, 0–23) and day of week (`getDay()`, 0 = Sunday). -/
structure TimeCtx where
  hour : Nat
  day : Nat
  deriving DecidableEq, Repr

/-- The clinical/professional roles allowed to touch PHI
(`medicalProfessionalRoles` in `canUserAccessPHI`). -/
def medicalProfessionalRoles : List MedicalRole :=
  [.doctor, .nurse, .specialist, .oncologist, .institutionAdmin]

/-- Model of `MedicalAuthorizationGuard.canUserAccessPHI`: the actor needs a
clinical role, and when the resource carries an institution id the
actor's institution must match it. -/
def canUserAccessPHI (user : MedicalUser) (resourceInfo : ResourceInfo) :
    Bool × Option String :=
  if ¬ user.medicalRoles.any (fun r => medicalProfessionalRoles.contains r) then
    (false, some "User role not authorized for PHI access")
  else
    match resourceInfo.institutionId with
    | some i =>
        if user.institutionId ≠ some i then
          (false, some "PHI access requires same institution association")
        else (true, none)
    | none => (true, none)

/-- Model of `MedicalAuthorizationGuard.checkAccessTime`: researchers are denied
outside weekday business hours (8–18); the separate after-hours branch
only emits a warning log and never changes the result. -/
def checkAccessTime (user : MedicalUser) (now : TimeCtx) : Bool × Option String :=
  if user.medicalRoles.contains .researcher ∧
      (now.day = 0 ∨ now.day = 6 ∨ now.hour < 8 ∨ now.hour > 18) then
    (false, some "Researcher access limited to business hours")
  else (true, none)

/-- Rule 2 condition: a non-empty required-role list none of which the
actor holds. -/
def roleRuleFails (user : MedicalUser) (requiredRoles : Option (List MedicalRole)) :
    Bool :=
  match requiredRoles with
  | none => false
  | some rs => ¬ rs.isEmpty ∧ ¬ rs.any (fun r => user.medicalRoles.contains r)

/-- Rule 4 condition: the resource carries an institution id differing
from the actor's, and the actor is not a platform admin. -/
def tenancyRuleFails (user : MedicalUser) (resourceInfo : ResourceInfo) : Bool :=
  match resourceInfo.institutionId with
  | none => false
  | some i => user.institutionId ≠ some i ∧ ¬ user.medicalRoles.contains .admin

/-- Rule 7 condition: the resource carries a patient id, the actor holds
the patient role, and the ids differ. -/
def selfAccessRuleFails (user : MedicalUser) (resourceInfo : ResourceInfo) : Bool :=
  match resourceInfo.patientId with
  | none => false
  | some p => user.medicalRoles.contains .patient ∧ user.id ≠ p

/-- Model of `MedicalAuthorizationGuard.evaluateMedicalPolicies`: the ordered rule
ladder; the first failing rule determines the decision. -/
def evaluateMedicalPolicies (user : MedicalUser)
    (requiredRoles : Option (List MedicalRole))
    (requiredDataClassification : Option DataClassification)
    (institutionRequired : Bool) (resourceInfo : ResourceInfo)
    (now : TimeCtx) : PolicyDecision :=
  -- Regla 1: Usuario debe estar activo
  if user.status ≠ "active" then
    ⟨false, some "User is not active", .high⟩
  -- Regla 2: Verificar roles requeridos
  else if roleRuleFails user requiredRoles then
    ⟨false, some "User lacks required medical roles", .medium⟩
  -- Regla 3: Verificar institución requerida
  else if institutionRequired ∧ user.institutionId = none then
    ⟨false, some "User must be associated with a medical institution", .high⟩
  -- Regla 4: Multi-tenancy
  else if tenancyRuleFails user resourceInfo then
    ⟨false, some "Cross-institution access denied", .critical⟩
  -- Regla 5: Acceso a datos PHI
  else if requiredDataClassification = some .phi ∧
      ¬ (canUserAccessPHI user resourceInfo).1 then
    ⟨false, (canUserAccessPHI user resourceInfo).2, .critical⟩
  -- Regla 6: Horarios de acceso
  else if ¬ (checkAccessTime user now).1 then
    ⟨false, (checkAccessTime user now).2, .medium⟩
  -- Regla 7: Acceso a datos del propio paciente
  else if selfAccessRuleFails user resourceInfo then
    ⟨false, some "Patients can only access their own medical data", .critical⟩
  else
    ⟨true, none, .low⟩

/-- Request data used for auditing: HTTP method, client address, agent
and path. -/
structure RequestCtx where
  method : String
  ip : Option String
  userAgent : Option String
  path : String
  deriving DecidableEq, Repr

/-- The `metadata` object that `auditAccess` attaches to each entry. -/
structure AuditMeta where
  path : String
  userRoles : List MedicalRole
  authReason : Option String
  riskLevel : RiskLevel
  resourceInfo : ResourceInfo
  deriving DecidableEq, Repr

/-- The input to `AuditService.logEvent`
(`Omit<AuditLogEntry, 'id' | 'riskLevel' | 'complianceFlags'>`). The
entry's timestamp is represented by its local hour, the only part of it
the risk and flag derivations read (`timestamp.getHours()`). -/
structure AuditInput where
  eventId : String
  eventType : String
  aggregateId : String
  userId : String
  institutionId : Option String
  timestampHour : Nat
  dataClassifications : List String
  ipAddress : Option String
  userAgent : Option String
  action : String
  resource : String
  resourceId : Option String
  allowed : Bool
  metadata : Option AuditMeta
  deriving DecidableEq, Repr

/-- The full `AuditLogEntry` persisted by the audit logger. -/
structure AuditLogEntry where
  eventId : String
  eventType : String
  aggregateId : String
  userId : String
  institutionId : Option String
  timestampHour : Nat
  dataClassifications : List String
  ipAddress : Option String
  userAgent : Option String
  action : String
  resource : String
  resourceId : Option String
  allowed : Bool
  riskLevel : RiskLevel
  complianceFlags : List String
  metadata : Option AuditMeta
  deriving DecidableEq, Repr

/-- The cumulative risk score computed inside
`AuditService.calculateRiskLevel`, accumulating the factors in source
order. -/
def riskScore (entry : AuditInput) : Nat :=
  let s := 0
  -- Factor 1: Tipo de datos accedidos
  let s := if entry.dataClassifications.contains "phi" then s + 3 else s
  let s := if entry.dataClassifications.contains "pii" then s + 2 else s
  -- Factor 2: Acceso no autorizado
  let s := if ¬ entry.allowed then s + 5 else s
  -- Factor 3: Horario
  let s := if entry.timestampHour < 6 ∨ entry.timestampHour > 22 then s + 1 else s
  -- Factor 4: Tipo de acción
  let s := if entry.action = "DELETE" then s + 3 else s
  let s := if entry.action = "UPDATE" then s + 1 else s
  -- Factor 5: Usuario externo
  if entry.institutionId = none then s + 2 else s

/-- Model of `AuditService.calculateRiskLevel`: maps the cumulative score to a level. -/
def calculateRiskLevel (entry : AuditInput) : RiskLevel :=
  if riskScore entry ≥ 8 then .critical
  else if riskScore entry ≥ 5 then .high
  else if riskScore entry ≥ 2 then .medium
  else .low

/-- Model of `AuditService.identifyComplianceFlags`. -/
def identifyComplianceFlags (entry : AuditInput) : List String :=
  let flags : List String := []
  let flags := if ¬ entry.allowed then flags ++ ["unauthorized_access"] else flags
  let flags := if entry.dataClassifications.contains "phi" then
      flags ++ ["phi_access"] else flags
  let flags := if entry.institutionId = none then flags ++ ["external_access"] else flags
  let flags := if entry.action = "DELETE" ∧ entry.dataClassifications.contains "phi" then
      flags ++ ["data_deletion_phi"] else flags
  if entry.timestampHour < 6 ∨ entry.timestampHour > 22 then
    flags ++ ["after_hours_access"]
  else flags

/-- The message of the error `AuditService.logEvent` rethrows when the
audit write fails. -/
def auditFailureMsg : String :=
  "Audit logging failed - this is a compliance violation"

/-- Model of `AuditService.logEvent`: derive risk level and compliance flags and
persist the entry. The durable sink (the structured logger / audit
repository) is external; `sinkOk` says whether the write inside the
`try` block succeeds. On failure the error is rethrown, never
swallowed. -/
def logEvent (sinkOk : Bool) (entry : AuditInput) : Except String AuditLogEntry :=
  let auditEntry : AuditLogEntry :=
    { eventId := entry.eventId
      eventType := entry.eventType
      aggregateId := entry.aggregateId
      userId := entry.userId
      institutionId := entry.institutionId
      timestampHour := entry.timestampHour
      dataClassifications := entry.dataClassifications
      ipAddress := entry.ipAddress
      userAgent := entry.userAgent
      action := entry.action
      resource := entry.resource
      resourceId := entry.resourceId
      allowed := entry.allowed
      riskLevel := calculateRiskLevel entry
      complianceFlags := identifyComplianceFlags entry
      metadata := entry.metadata }
  if sinkOk then .ok auditEntry else .error auditFailureMsg

/-- The argument record of `AuditService.logAccess`. -/
structure AccessInput where
  userId : String
  resource : String
  resourceId : Option String
  action : String
  allowed : Bool
  institutionId : Option String
  dataClassifications : Option (List String)
  ipAddress : Option String
  userAgent : Option String
  metadata : Option AuditMeta
  deriving DecidableEq, Repr

/-- Model of `AuditService.logAccess`: builds a `data_access` event and hands it
to `logEvent`. The generated event id and the clock reading are explicit
arguments. -/
def logAccess (sinkOk : Bool) (freshEventId : String) (now : TimeCtx)
    (a : AccessInput) : Except String AuditLogEntry :=
  logEvent sinkOk
    { eventId := freshEventId
      eventType := "data_access"
      aggregateId := a.resourceId.getD a.resource
      userId := a.userId
      institutionId := a.institutionId
      timestampHour := now.hour
      dataClassifications := a.dataClassifications.getD ["unknown"]
      ipAddress := a.ipAddress
      userAgent := a.userAgent
      action := a.action
      resource := a.resource
      resourceId := a.resourceId
      allowed := a.allowed
      metadata := a.metadata }

/-- Model of `MedicalAuthorizationGuard.auditAccess`: builds the access record
from the user, request, resource info and decision, and hands it to the
audit service. -/
def auditAccess (sinkOk : Bool) (freshEventId : String) (now : TimeCtx)
    (user : MedicalUser) (req : RequestCtx) (resourceInfo : ResourceInfo)
    (authDecision : PolicyDecision)
    (requiredDataClassification : Option DataClassification) :
    Except String AuditLogEntry :=
  let dataClassifications : List String :=
    match requiredDataClassification with
    | some c => [c.toStr]
    | none => []
  logAccess sinkOk freshEventId now
    { userId := user.id
      resource := resourceInfo.resourceType.getD "unknown"
      resourceId := resourceInfo.resourceId
      action := req.method
      allowed := authDecision.allowed
      institutionId := user.institutionId
      dataClassifications := some dataClassifications
      ipAddress := req.ip
      userAgent := req.userAgent
      metadata := some ⟨req.path, user.medicalRoles, authDecision.reason,
                        authDecision.riskLevel, resourceInfo⟩ }

/-- Model of `MedicalAuthorizationGuard.canActivate`: with no authenticated user
the guard returns `false` immediately; otherwise it evaluates the policy
ladder, audits the access, and returns the decision's `allowed` flag.
The result pairs the outcome (`Except` for a thrown audit error) with
the list of audit entries durably recorded during the call. -/
def canActivate (sinkOk : Bool) (freshEventId : String)
    (userOpt : Option MedicalUser) (requiredRoles : Option (List MedicalRole))
    (requiredDataClassification : Option DataClassification)
    (institutionRequired : Bool) (resourceInfo : ResourceInfo)
    (now : TimeCtx) (req : RequestCtx) :
    Except String Bool × List AuditLogEntry :=
  match userOpt with
  | none => (.ok false, [])
  | some user =>
      let authDecision := evaluateMedicalPolicies user requiredRoles
        requiredDataClassification institutionRequired resourceInfo now
      match auditAccess sinkOk freshEventId now user req resourceInfo
          authDecision requiredDataClassification with
      | .ok entry => (.ok authDecision.allowed, [entry])
      | .error e => (.error e, [])

/-! ### Field-level encryption codec (`EncryptionService`)

The codec's own logic — the empty-value guards, the `iv:authTag:data`
wire format, the split/validate/decode path — is embedded directly.
The AES-256-GCM primitive itself lives in Node's `crypto` module, so it
appears here as an explicit `CipherPrim` parameter; theorems assume of
it only what its documentation guarantees (hex output, authenticated
decryption inverting encryption). Strings are modelled as `List Char`
so that JavaScript's `split(':')`, `includes(':')` and `join(':')`
translate to structurally recursive functions. -/

/-- A string, as the codec manipulates it. -/
abbrev Str := List Char

/-- JavaScript `s.includes(':')`. -/
def hasColon : Str → Bool
  | [] => false
  | c :: rest => c == ':' || hasColon rest

/-- JavaScript `s.split(':')` (single-character separator). -/
def splitOnColon : Str → List Str
  | [] => [[]]
  | c :: rest =>
      let parts := splitOnColon rest
      if c = ':' then [] :: parts
      else
        match parts with
        | p :: ps => (c :: p) :: ps
        | [] => [[c]]

/-- JavaScript `parts.join(':')`. -/
def joinColon : List Str → Str
  | [] => []
  | [p] => p
  | p :: rest => p ++ ':' :: joinColon rest

/-- The external AES-256-GCM primitive (`crypto.createCipheriv` /
`crypto.createDecipheriv` with the derived key and the fixed
`medical-data-v1` AAD): `enc iv plaintext` returns the hex ciphertext
and the hex auth tag; `dec iv authTag ciphertext` authenticates and
decrypts. -/
structure CipherPrim where
  enc : Str → Str → Str × Str
  dec : Str → Str → Str → Except String Str

/-- Model of `EncryptionService.encrypt`: empty input is returned as is;
otherwise the value is encrypted under a fresh random IV (an explicit
argument here) and encoded as `iv:authTag:encryptedData`. -/
def encrypt (prim : CipherPrim) (iv : Str) (plaintext : Str) : Str :=
  if plaintext = [] then plaintext
  else
    let (encrypted, authTag) := prim.enc iv plaintext
    joinColon [iv, authTag, encrypted]

/-- Model of `EncryptionService.decrypt`: inputs that are empty or carry no `:`
separator are returned unchanged; otherwise the value must split into
exactly three parts, which are decoded by the cipher; any failure is a
typed `Decryption failed` error. -/
def decrypt (prim : CipherPrim) (encryptedData : Str) : Except String Str :=
  if encryptedData = [] ∨ ¬ hasColon encryptedData then .ok encryptedData
  else
    match splitOnColon encryptedData with
    | [ivHex, authTagHex, encrypted] =>
        match prim.dec ivHex authTagHex encrypted with
        | .ok decrypted => .ok decrypted
        | .error e => .error ("Decryption failed: " ++ e)
    | _ => .error "Decryption failed: Invalid encrypted data format"

/-- The fixed salt used by `EncryptionService.hash`. -/
def hashSalt : String := "medical-hash-salt-2024"

/-- Model of `EncryptionService.hash`: empty input is returned as is; otherwise
the SHA-256 hex digest (the external `digest` parameter) of the data
concatenated with the fixed salt. -/
def hashId (digest : String → String) (data : String) : String :=
  if data = "" then data else digest (data ++ hashSalt)

/-- The `to` transformer of the `@Encrypted()` column decorator: absent
service or empty value pass through; otherwise the value is encrypted,
and — as written in the source — an encryption error is caught and the
plaintext returned unchanged. -/
def encryptedFieldTo (svc : Option (String → Except String String))
    (value : String) : String :=
  if value = "" then value
  else
    match svc with
    | none => value
    | some encryptFn =>
        match encryptFn value with
        | .ok ciphertext => ciphertext
        | .error _ => value

/-- The `from` transformer of the `@Encrypted()` column decorator:
absent service or empty value pass through; otherwise the value is
decrypted, and — as written in the source — a decryption error is
caught and the stored ciphertext returned unchanged. -/
def encryptedFieldFrom (svc : Option (String → Except String String))
    (value : String) : String :=
  if value = "" then value
  else
    match svc with
    | none => value
    | some decryptFn =>
        match decryptFn value with
        | .ok plaintext => plaintext
        | .error _ => value

/-! ### Lemmas about the wire format helpers -/

theorem hasColon_append (a b : Str) :
    hasColon (a ++ b) = (hasColon a || hasColon b) := by
  induction a with
  | nil => simp [hasColon]
  | cons c rest ih => simp [hasColon, ih, Bool.or_assoc]

theorem splitOnColon_ne_nil (a : Str) : splitOnColon a ≠ [] := by
  cases a with
  | nil => simp [splitOnColon]
  | cons c rest =>
      simp only [splitOnColon]
      split
      · simp
      · split <;> simp

theorem splitOnColon_no_colon (a : Str) (h : hasColon a = false) :
    splitOnColon a = [a] := by
  induction a with
  | nil => simp [splitOnColon]
  | cons c rest ih =>
      rw [hasColon, Bool.or_eq_false_iff, beq_eq_false_iff_ne] at h
      simp only [splitOnColon, ih h.2, if_neg h.1]

theorem splitOnColon_append (a b : Str) (h : hasColon a = false) :
    splitOnColon (a ++ ':' :: b) = a :: splitOnColon b := by
  induction a with
  | nil => simp [splitOnColon]
  | cons c rest ih =>
      rw [hasColon, Bool.or_eq_false_iff, beq_eq_false_iff_ne] at h
      simp only [List.cons_append, splitOnColon, List.append_eq, ih h.2, if_neg h.1]

/-! ### Claim theorems for the encryption codec -/

/-- Claim C10: inputs that are empty or contain no `:` separator are returned
unchanged by `decrypt`, with no error. -/
theorem decrypt_returns_plain_input_unchanged (prim : CipherPrim) (d : Str)
    (h : d = [] ∨ hasColon d = false) :
    decrypt prim d = .ok d := by
  rcases h with h | h <;> simp [decrypt, h]

/-- A cipher primitive used to instantiate the `decrypt` pass-through
theorem at a concrete input. -/
def primPlain : CipherPrim := ⟨fun _ p => (p, ['t']), fun _ _ ct => .ok ct⟩

/-- Witness for C10 at the concrete colon-free input `plain`. -/
theorem decrypt_returns_plain_input_unchanged_witness :
    (['p', 'l', 'a', 'i', 'n'] = ([] : Str) ∨
      hasColon ['p', 'l', 'a', 'i', 'n'] = false) ∧
    decrypt primPlain ['p', 'l', 'a', 'i', 'n'] =
      .ok ['p', 'l', 'a', 'i', 'n'] :=
  ⟨Or.inr (by decide),
   decrypt_returns_plain_input_unchanged primPlain _ (Or.inr (by decide))⟩

/-- Claim C7: decrypting the result of encrypting `s` yields `s`, and for
nonempty `s` the encoded output embeds the IV and the authentication
tag alongside the ciphertext (`iv:authTag:encryptedData`), so the value
is independently decryptable. The hypotheses state what Node's
AES-256-GCM guarantees for this value: hex outputs never contain `:`,
and authenticated decryption inverts encryption. -/
theorem decrypt_encrypt_roundtrip (prim : CipherPrim) (iv s : Str)
    (hiv : hasColon iv = false)
    (hct : hasColon (prim.enc iv s).1 = false)
    (htag : hasColon (prim.enc iv s).2 = false)
    (hdec : prim.dec iv (prim.enc iv s).2 (prim.enc iv s).1 = .ok s) :
    decrypt prim (encrypt prim iv s) = .ok s ∧
    (s ≠ [] → encrypt prim iv s =
      iv ++ ':' :: ((prim.enc iv s).2 ++ ':' :: (prim.enc iv s).1)) := by
  by_cases hs : s = []
  · subst hs
    constructor
    · simp [encrypt, decrypt]
    · intro h
      exact absurd rfl h
  · have henc : encrypt prim iv s =
        iv ++ ':' :: ((prim.enc iv s).2 ++ ':' :: (prim.enc iv s).1) := by
      simp only [encrypt, if_neg hs, joinColon]
    refine ⟨?_, fun _ => henc⟩
    rw [henc]
    have hcolon : hasColon
        (iv ++ ':' :: ((prim.enc iv s).2 ++ ':' :: (prim.enc iv s).1)) = true := by
      simp [hasColon_append, hasColon]
    have hnonnil :
        iv ++ ':' :: ((prim.enc iv s).2 ++ ':' :: (prim.enc iv s).1) ≠ [] := by
      cases iv <;> simp
    have hsplit : splitOnColon
        (iv ++ ':' :: ((prim.enc iv s).2 ++ ':' :: (prim.enc iv s).1)) =
        [iv, (prim.enc iv s).2, (prim.enc iv s).1] := by
      rw [splitOnColon_append _ _ hiv, splitOnColon_append _ _ htag,
        splitOnColon_no_colon _ hct]
    simp only [decrypt, hcolon, hnonnil, hsplit, Bool.not_true, or_self,
      if_false, false_or, hdec]
    simp

/-- A cipher primitive whose encryption is the identity with a fixed
tag, used to instantiate the round-trip theorem at a concrete input. -/
def primIdent : CipherPrim := ⟨fun _ p => (p, ['t']), fun _ _ ct => .ok ct⟩

/-- Witness for C7 at the concrete plaintext `abc` and IV `iv`. -/
theorem decrypt_encrypt_roundtrip_witness :
    decrypt primIdent (encrypt primIdent ['i', 'v'] ['a', 'b', 'c']) =
      .ok ['a', 'b', 'c'] :=
  (decrypt_encrypt_roundtrip primIdent ['i', 'v'] ['a', 'b', 'c']
    (by decide) (by decide) (by decide) rfl).1

/-- Claim C1 (as observed in the code): the `@Encrypted()` column transformers
catch encryption and decryption errors and silently return the input
value unchanged — the plaintext is kept on an encryption failure and
the stored ciphertext is returned on a decryption failure, contradicting
the strict error policy the specification requires. -/
theorem encrypted_transformer_swallows_failures :
    encryptedFieldTo
        (some fun _ => Except.error "Encryption failed: key unavailable")
        "123-45-6789" = "123-45-6789" ∧
    encryptedFieldFrom
        (some fun _ => Except.error "Decryption failed: bad auth tag")
        "aa:bb:cc" = "aa:bb:cc" :=
  ⟨rfl, rfl⟩

/-- A stand-in for the external SHA-256 hex digest: a function whose
output always has the digest length 64. -/
def digestStub : String → String := fun _ => String.mk (List.replicate 64 'a')

/-- Claim C8 counterexample: the hash guard returns an empty identifier
unchanged, so `Hash("") = ""` — the digest equals its input there. -/
theorem hash_of_empty_equals_input : hashId digestStub "" = "" := rfl

/-- Claim C8 (amended): hashing is deterministic (same digest for repeated
calls with the fixed salt), the empty identifier passes through
unchanged, and for every nonempty identifier the result is the digest
of the salted input — hence differs from the input whenever the input's
length is not the digest length 64. -/
theorem hash_deterministic_and_differs (digest : String → String)
    (hlen : ∀ m, (digest m).length = 64) :
    (∀ x, hashId digest x = hashId digest x) ∧
    hashId digest "" = "" ∧
    (∀ x, x ≠ "" → hashId digest x = digest (x ++ hashSalt)) ∧
    (∀ x, x ≠ "" → x.length ≠ 64 → hashId digest x ≠ x) := by
  refine ⟨fun x => rfl, rfl, fun x hx => by simp [hashId, hx], fun x hx hxlen => ?_⟩
  rw [hashId, if_neg hx]
  intro heq
  exact hxlen (by rw [← heq, hlen])

/-- Witness for C8 at the concrete identifier `abc`. -/
theorem hash_deterministic_and_differs_witness :
    hashId digestStub "abc" ≠ "abc" :=
  (hash_deterministic_and_differs digestStub
      (fun m => by simp [digestStub, String.length])).2.2.2
    "abc" (by decide) (by decide)

/-! ### Claim theorems for the audit risk derivation -/

/-- The risk score as the specification words it: a plain sum of the
seven independent contributions. -/
def specRiskScore (entry : AuditInput) : Nat :=
  (if entry.dataClassifications.contains "phi" then 3 else 0) +
  (if entry.dataClassifications.contains "pii" then 2 else 0) +
  (if entry.allowed then 0 else 5) +
  (if entry.timestampHour < 6 ∨ entry.timestampHour > 22 then 1 else 0) +
  (if entry.action = "DELETE" then 3 else 0) +
  (if entry.action = "UPDATE" then 1 else 0) +
  (if entry.institutionId = none then 2 else 0)

/-- The specification's mapping from cumulative score to level. -/
def levelOfScore (s : Nat) : RiskLevel :=
  if s ≥ 8 then .critical
  else if s ≥ 5 then .high
  else if s ≥ 2 then .medium
  else .low

theorem calculateRiskLevel_eq (entry : AuditInput) :
    calculateRiskLevel entry = levelOfScore (riskScore entry) := rfl

theorem levelOfScore_mono (s t : Nat) (h : s ≤ t) :
    (levelOfScore s).rank ≤ (levelOfScore t).rank := by
  unfold levelOfScore
  split_ifs <;> simp only [RiskLevel.rank] <;> omega

theorem ite_add_shift (c : Prop) [Decidable c] (s k : Nat) :
    (if c then s + k else s) = s + (if c then k else 0) := by
  split_ifs <;> omega

theorem ite_add_shift_neg (c : Prop) [Decidable c] (s k : Nat) :
    (if c then s else s + k) = s + (if c then 0 else k) := by
  split_ifs <;> omega

theorem riskScore_eq_spec (entry : AuditInput) :
    riskScore entry = specRiskScore entry := by
  unfold riskScore specRiskScore
  simp only [ite_not, ite_add_shift, ite_add_shift_neg, Nat.zero_add]

/-- Claim C5: the derived risk score is the sum of the seven factors the
specification lists, and the derived level is the threshold mapping
(`>=8` critical, `>=5` high, `>=2` medium, else low) of that sum. -/
theorem risk_derivation_matches_spec (entry : AuditInput) :
    riskScore entry = specRiskScore entry ∧
    calculateRiskLevel entry = levelOfScore (specRiskScore entry) := by
  exact ⟨riskScore_eq_spec entry,
    by rw [calculateRiskLevel_eq, riskScore_eq_spec]⟩

theorem riskScore_phi_cons_ge (entry : AuditInput) :
    riskScore entry ≤
      riskScore { entry with
        dataClassifications := "phi" :: entry.dataClassifications } := by
  rw [riskScore_eq_spec, riskScore_eq_spec]
  unfold specRiskScore
  simp only [List.contains_cons, beq_self_eq_true, Bool.true_or, if_true]
  refine Nat.add_le_add (Nat.add_le_add (Nat.add_le_add (Nat.add_le_add
    (Nat.add_le_add (Nat.add_le_add ?_ ?_) ?_) ?_) ?_) ?_) ?_
  · split_ifs <;> omega
  · simp only [show (("pii" : String) == "phi") = false from by decide,
      Bool.false_or]
    exact le_refl _
  · exact le_refl _
  · exact le_refl _
  · exact le_refl _
  · exact le_refl _
  · exact le_refl _

/-- Claim C9: adding a PHI classification to an otherwise-identical denied
audit entry never lowers the derived risk level. -/
theorem risk_level_monotone_in_phi (entry : AuditInput)
    (_hdenied : entry.allowed = false) :
    (calculateRiskLevel entry).rank ≤
      (calculateRiskLevel { entry with
        dataClassifications := "phi" :: entry.dataClassifications }).rank := by
  rw [calculateRiskLevel_eq, calculateRiskLevel_eq]
  exact levelOfScore_mono _ _ (riskScore_phi_cons_ge entry)

/-- A concrete denied audit input for the monotonicity witness. -/
def deniedEntry : AuditInput :=
  ⟨"evt1", "data_access", "patients", "u1", some "A", 10, ["pii"],
   none, none, "GET", "patients", none, false, none⟩

/-- Witness for C9 at a concrete denied entry. -/
theorem risk_level_monotone_in_phi_witness :
    deniedEntry.allowed = false ∧
    (calculateRiskLevel deniedEntry).rank ≤
      (calculateRiskLevel { deniedEntry with
        dataClassifications := "phi" :: deniedEntry.dataClassifications }).rank :=
  ⟨rfl, risk_level_monotone_in_phi deniedEntry rfl⟩

/-! ### Claim theorems for the policy evaluation guard -/

/-- Claim C6 counterexample: an inactive non-admin actor requesting a
resource of a foreign institution is denied by the actor-status rule
first, with risk `high`, not `critical` as the claim states. -/
theorem cross_institution_risk_counterexample :
    ((⟨none, some "B", none, none⟩ : ResourceInfo).institutionId = some "B") ∧
    (⟨"d1", "d@x", [.doctor], some "A", "inactive"⟩ :
      MedicalUser).institutionId ≠ some "B" ∧
    ((⟨"d1", "d@x", [.doctor], some "A", "inactive"⟩ :
      MedicalUser).medicalRoles.contains .admin = false) ∧
    (evaluateMedicalPolicies ⟨"d1", "d@x", [.doctor], some "A", "inactive"⟩
      none none false ⟨none, some "B", none, none⟩ ⟨10, 2⟩).riskLevel = .high ∧
    (evaluateMedicalPolicies ⟨"d1", "d@x", [.doctor], some "A", "inactive"⟩
      none none false ⟨none, some "B", none, none⟩ ⟨10, 2⟩).riskLevel ≠
      .critical := by
  decide

/-- Claim C6 (amended): when the resource carries an institution id
differing from the actor's and the actor lacks the platform-admin role,
the evaluation always denies; the risk level is `critical` provided no
earlier rule of the ladder (active status, required roles, institution
requirement) has already denied with its own level. -/
theorem cross_institution_denied (user : MedicalUser)
    (rr : Option (List MedicalRole)) (rc : Option DataClassification)
    (ir : Bool) (ri : ResourceInfo) (now : TimeCtx) (i : String)
    (hinst : ri.institutionId = some i)
    (hdiff : user.institutionId ≠ some i)
    (hnadmin : user.medicalRoles.contains .admin = false) :
    (evaluateMedicalPolicies user rr rc ir ri now).allowed = false ∧
    (user.status = "active" → roleRuleFails user rr = false →
      ¬ (ir = true ∧ user.institutionId = none) →
      (evaluateMedicalPolicies user rr rc ir ri now).riskLevel = .critical) := by
  have hnadmin' : MedicalRole.admin ∉ user.medicalRoles := by
    simpa using hnadmin
  have htf : tenancyRuleFails user ri = true := by
    rw [tenancyRuleFails, hinst]
    simp [hdiff, hnadmin']
  constructor
  · unfold evaluateMedicalPolicies
    split_ifs <;> simp_all
  · intro hstatus hrole hinstreq
    unfold evaluateMedicalPolicies
    rw [if_neg (by simp [hstatus]), if_neg (by simp [hrole]),
      if_neg hinstreq, if_pos htf]

/-- Witness for C6: an active doctor of institution A requesting a
resource of institution B is denied with risk `critical`. -/
theorem cross_institution_denied_witness :
    (evaluateMedicalPolicies ⟨"d1", "d@x", [.doctor], some "A", "active"⟩
      none none false ⟨none, some "B", none, none⟩ ⟨10, 2⟩).allowed = false ∧
    (evaluateMedicalPolicies ⟨"d1", "d@x", [.doctor], some "A", "active"⟩
      none none false ⟨none, some "B", none, none⟩ ⟨10, 2⟩).riskLevel =
      .critical :=
  have h := cross_institution_denied
    ⟨"d1", "d@x", [.doctor], some "A", "active"⟩ none none false
    ⟨none, some "B", none, none⟩ ⟨10, 2⟩ "B" rfl (by decide) (by decide)
  ⟨h.1, h.2 rfl rfl (by decide)⟩

/-- Claim C3 counterexample: an inactive patient-only actor requesting
another patient's resource is denied by the actor-status rule with risk
`high`, not `critical` as the claim states for every differing-id
request. -/
theorem patient_self_access_counterexample :
    ((⟨"p1", "p@x", [.patient], none, "inactive"⟩ :
      MedicalUser).medicalRoles = [.patient]) ∧
    ((⟨some "p2", none, none, none⟩ : ResourceInfo).patientId = some "p2") ∧
    ((⟨"p1", "p@x", [.patient], none, "inactive"⟩ : MedicalUser).id ≠ "p2") ∧
    (evaluateMedicalPolicies ⟨"p1", "p@x", [.patient], none, "inactive"⟩
      none none false ⟨some "p2", none, none, none⟩ ⟨10, 2⟩).riskLevel =
      .high ∧
    (evaluateMedicalPolicies ⟨"p1", "p@x", [.patient], none, "inactive"⟩
      none none false ⟨some "p2", none, none, none⟩ ⟨10, 2⟩).riskLevel ≠
      .critical := by
  decide

/-- Claim C3 (amended): for an actor whose role set is exactly
`{patient}` and a resource carrying a patient id, access is allowed only
when the ids are equal; when they differ the evaluation always denies,
with risk `critical` provided no earlier rule of the ladder has already
denied with its own level; and when the ids are equal (all other rules
satisfied) access is allowed. -/
theorem patient_self_access_policy (user : MedicalUser)
    (rr : Option (List MedicalRole)) (rc : Option DataClassification)
    (ir : Bool) (ri : ResourceInfo) (now : TimeCtx) (p : String)
    (hroles : user.medicalRoles = [.patient])
    (hpid : ri.patientId = some p) :
    ((evaluateMedicalPolicies user rr rc ir ri now).allowed = true →
      user.id = p) ∧
    (user.id ≠ p → user.status = "active" → roleRuleFails user rr = false →
      ¬ (ir = true ∧ user.institutionId = none) →
      (evaluateMedicalPolicies user rr rc ir ri now).allowed = false ∧
      (evaluateMedicalPolicies user rr rc ir ri now).riskLevel = .critical) ∧
    (user.id = p → user.status = "active" → roleRuleFails user rr = false →
      ¬ (ir = true ∧ user.institutionId = none) →
      tenancyRuleFails user ri = false → rc ≠ some .phi →
      (evaluateMedicalPolicies user rr rc ir ri now).allowed = true) := by
  have hphiRole : (canUserAccessPHI user ri).1 = false := by
    simp [canUserAccessPHI, hroles, medicalProfessionalRoles]
  refine ⟨?_, ?_, ?_⟩
  · unfold evaluateMedicalPolicies
    split_ifs <;> simp_all [selfAccessRuleFails, hpid, hroles]
  · intro hne hstatus hrole hinstreq
    unfold evaluateMedicalPolicies
    rw [if_neg (by simp [hstatus]), if_neg (by simp [hrole]),
      if_neg hinstreq]
    by_cases ht : tenancyRuleFails user ri = true
    · rw [if_pos ht]
      exact ⟨rfl, rfl⟩
    · rw [if_neg ht]
      by_cases hphi : rc = some .phi
      · rw [if_pos ⟨hphi, by simp [hphiRole]⟩]
        exact ⟨rfl, rfl⟩
      · rw [if_neg (by simp [hphi]),
          if_neg (by simp [checkAccessTime, hroles]),
          if_pos (by simp [selfAccessRuleFails, hpid, hroles, hne])]
        exact ⟨rfl, rfl⟩
  · intro heq hstatus hrole hinstreq htenancy hrc
    unfold evaluateMedicalPolicies
    rw [if_neg (by simp [hstatus]), if_neg (by simp [hrole]),
      if_neg hinstreq, if_neg (by simp [htenancy]),
      if_neg (by simp [hrc]),
      if_neg (by simp [checkAccessTime, hroles]),
      if_neg (by simp [selfAccessRuleFails, hpid, hroles, heq])]

/-- Witness for C3: an active patient `p1` requesting patient `p2`'s
resource is denied with risk `critical`. -/
theorem patient_self_access_policy_witness :
    (evaluateMedicalPolicies ⟨"p1", "p@x", [.patient], none, "active"⟩
      none none false ⟨some "p2", none, none, none⟩ ⟨10, 2⟩).allowed =
      false ∧
    (evaluateMedicalPolicies ⟨"p1", "p@x", [.patient], none, "active"⟩
      none none false ⟨some "p2", none, none, none⟩ ⟨10, 2⟩).riskLevel =
      .critical :=
  (patient_self_access_policy ⟨"p1", "p@x", [.patient], none, "active"⟩
    none none false ⟨some "p2", none, none, none⟩ ⟨10, 2⟩ "p2"
    rfl rfl).2.1 (by decide) rfl rfl (by decide)

/-- Claim C2 counterexample: a call to `canActivate` with no
authenticated user on the request returns `false` immediately and
produces no audit entry at all — not exactly one. -/
theorem canActivate_without_user_produces_no_audit :
    (canActivate true "evt1" none none none false ⟨none, none, none, none⟩
      ⟨10, 2⟩ ⟨"GET", none, none, "/patients"⟩).1 = .ok false ∧
    (canActivate true "evt1" none none none false ⟨none, none, none, none⟩
      ⟨10, 2⟩ ⟨"GET", none, none, "/patients"⟩).2.length ≠ 1 :=
  ⟨rfl, by decide⟩

/-- Claim C2 (amended): every call to `canActivate` in which an
authenticated user is present and the audit write succeeds records
exactly one audit entry, whether the decision is allowed or denied, and
returns the decision's `allowed` flag. -/
theorem canActivate_with_user_audits_exactly_once (freshEventId : String)
    (user : MedicalUser) (rr : Option (List MedicalRole))
    (rc : Option DataClassification) (ir : Bool) (ri : ResourceInfo)
    (now : TimeCtx) (req : RequestCtx) :
    (canActivate true freshEventId (some user) rr rc ir ri now req).2.length
      = 1 ∧
    (canActivate true freshEventId (some user) rr rc ir ri now req).1 =
      .ok (evaluateMedicalPolicies user rr rc ir ri now).allowed := by
  simp [canActivate, auditAccess, logAccess, logEvent]

/-- Claim C4: when the audit write fails, `canActivate` propagates the
audit error to its caller, returns no decision value, and records no
entry — the failure is never swallowed. -/
theorem audit_write_failure_propagates (freshEventId : String)
    (user : MedicalUser) (rr : Option (List MedicalRole))
    (rc : Option DataClassification) (ir : Bool) (ri : ResourceInfo)
    (now : TimeCtx) (req : RequestCtx) :
    (canActivate false freshEventId (some user) rr rc ir ri now req).1 =
      .error auditFailureMsg ∧
    (canActivate false freshEventId (some user) rr rc ir ri now req).2 =
      [] := by
  simp [canActivate, auditAccess, logAccess, logEvent]

end MedicalPlatform
